import Mathlib

/-!
Shallow embedding of the BozzioCarCanSimulator core: vehicle registry
(MessageGeneratorFactory), per-family CAN encoders (VWT7MessageGenerator,
VWT6MessageGenerator in its two source revisions), the controller state
(CarCanController), the periodic transmission tick (sendPeriodicMessages),
and the serial command handlers (SerialCommandHandler).

Machine bytes are modelled as Nat values below 256; 8-byte CAN payloads as
lists of length 8.  The C++ speed conversion divides by a float constant
(0.01f or 0.005f) and truncates to uint16; both constants have the binary32
significand 10737418, so the division is embedded exactly over Nat with
IEEE-754 round-to-nearest-even (see rnDivTrunc).
-/

/-- Gear enum from BaseMessageGenerator.h: PARK, REVERSE, NEUTRAL, DRIVE. -/
inductive Gear where
  | PARK
  | REVERSE
  | NEUTRAL
  | DRIVE
deriving DecidableEq

/-- Underlying integer value of the C++ enum class Gear (PARK = 0, ...). -/
def Gear.toNat : Gear → Nat
  | .PARK => 0
  | .REVERSE => 1
  | .NEUTRAL => 2
  | .DRIVE => 3

/- button_id_t values from common.h. -/

def VW_T5 : Nat := 1
def VW_T6 : Nat := 2
def VW_T61 : Nat := 3
def VW_T7 : Nat := 4
def MB_SPRINTER : Nat := 5
def MB_SPRINTER_2023 : Nat := 6
def JEEP_RENEGADE : Nat := 7
def JEEP_RENEGADE_MHEV : Nat := 8
def MB_VIANO : Nat := 9

/-- Floor of the base-2 logarithm, fuel-driven so the kernel can evaluate it.
The outer fuel argument bounds the recursion; fuel = n always suffices. -/
def floorLog2Aux : Nat → Nat → Nat
  | 0, _ => 0
  | fuel + 1, n => if 2 ≤ n then floorLog2Aux fuel (n / 2) + 1 else 0

/-- Floor of the base-2 logarithm of n (0 for n = 0). -/
def floorLog2 (n : Nat) : Nat := floorLog2Aux n n

/-- Round num / d to the nearest integer, ties to even. -/
def rne (num d : Nat) : Nat :=
  let q := num / d
  let r := num % d
  if 2 * r < d then q
  else if d < 2 * r then q + 1
  else if q % 2 = 0 then q else q + 1

/-- Value of the IEEE-754 binary32 division n / d rounded to nearest-even,
then truncated toward zero, for exact nonnegative integer operands whose
quotient is zero or lies in [1, 2^24).  This embeds the C++ expression
static_cast to uint16 of (speed_kmh / SPEED_FACTOR): the float quotient is
rounded to a 24-bit significand m with exponent e, and truncation of
m * 2 ^ (e - 23) is m / 2 ^ (23 - e) for e ≤ 23.  All uses below have
quotients below 2^16, inside that range. -/
def rnDivTrunc (n d : Nat) : Nat :=
  if n / d = 0 then 0
  else
    let e := floorLog2 (n / d)
    let m := rne (n * 2 ^ (23 - e)) d
    m / 2 ^ (23 - e)

/-!
The binary32 literal 0.01f is exactly 10737418 / 2^30 and 0.005f is exactly
10737418 / 2^31 (both have significand round(1.28 * 2^23) = 10737418).
Hence speed / 0.01f = speed * 2^30 / 10737418 and
speed / 0.005f = speed * 2^31 / 10737418 as exact rationals, then rounded
by the float division.
-/

namespace VWT7

/- Constants from src/main/VWT7MessageGenerator.h. -/

def SPEED_MSG_ID : Nat := 0x0FD
def GEAR_MSG_ID : Nat := 0x3DC
def CAN_BAUDRATE : Nat := 500000

/-- VWT7MessageGenerator::generateSpeedMessage: dlc = 8, zero-filled buffer,
speed_value = static_cast to uint16 of (speed_kmh / 0.01f), packed little
endian at bytes 4 and 5.  Returns (data, dlc). -/
def generateSpeedMessage (speed_kmh : Nat) : List Nat × Nat :=
  let speed_value := rnDivTrunc (speed_kmh * 2 ^ 30) 10737418
  ([0, 0, 0, 0, speed_value % 256, speed_value / 256 % 256, 0, 0], 8)

/-- The switch in VWT7MessageGenerator::generateGearMessage over the enum's
underlying value: PARK → 0x05, REVERSE → 0x04, NEUTRAL → 0x03, DRIVE → 0x02,
default → 0x05 (PARK). -/
def gearValue (g : Nat) : Nat :=
  if g = 0 then 0x05
  else if g = 1 then 0x04
  else if g = 2 then 0x03
  else if g = 3 then 0x02
  else 0x05

/-- VWT7MessageGenerator::generateGearMessage: dlc = 8, zero-filled buffer,
gear value at byte 5.  Returns (data, dlc). -/
def generateGearMessage (g : Nat) : List Nat × Nat :=
  ([0, 0, 0, 0, 0, gearValue g, 0, 0], 8)

/-- VWT7MessageGenerator::getRequiredMessageIds = gear id then speed id. -/
def getRequiredMessageIds : List Nat := [GEAR_MSG_ID, SPEED_MSG_ID]

end VWT7

namespace VWT6

/- Constants from src/main/VWT6MessageGenerator.h: speed id 0x01A0, gear id
0x0440, baud 500000, SPEED_FACTOR = 0.005f. -/

def SPEED_MSG_ID : Nat := 0x01A0
def GEAR_MSG_ID : Nat := 0x0440
def CAN_BAUDRATE : Nat := 500000

/-- VWT6MessageGenerator::generateSpeedMessage (current revision): dlc = 8,
zero-filled buffer, speed_value = static_cast to uint16 of
(speed_kmh / 0.005f), packed little endian at bytes 2 and 3. -/
def generateSpeedMessage (speed_kmh : Nat) : List Nat × Nat :=
  let speed_value := rnDivTrunc (speed_kmh * 2 ^ 31) 10737418
  ([0, 0, speed_value % 256, speed_value / 256 % 256, 0, 0, 0, 0], 8)

/-- The switch in VWT6MessageGenerator::generateGearMessage (current
revision): PARK → 0x80, REVERSE → 0x77, NEUTRAL → 0x60, DRIVE → 0x50,
default → 0x80 (PARK). -/
def gearValue (g : Nat) : Nat :=
  if g = 0 then 0x80
  else if g = 1 then 0x77
  else if g = 2 then 0x60
  else if g = 3 then 0x50
  else 0x80

/-- VWT6MessageGenerator::generateGearMessage (current revision): dlc = 8,
zero-filled buffer, gear value at byte 1. -/
def generateGearMessage (g : Nat) : List Nat × Nat :=
  ([0, gearValue g, 0, 0, 0, 0, 0, 0], 8)

/-- VWT6MessageGenerator::getRequiredMessageIds = gear id then speed id. -/
def getRequiredMessageIds : List Nat := [GEAR_MSG_ID, SPEED_MSG_ID]

end VWT6

namespace VWT6alt

/- The other source revision of the VW T6 generator: header constants
speed id 0x1FD, gear id 0x3DD, SPEED_FACTOR = 0.01f; the cpp writes the
scaled speed little endian at bytes 4 and 5 and the gear code at byte 5
with the T7 code table. -/

def SPEED_MSG_ID : Nat := 0x1FD
def GEAR_MSG_ID : Nat := 0x3DD
def CAN_BAUDRATE : Nat := 500000

/-- VWT6MessageGenerator::generateSpeedMessage (other revision): dlc = 8,
zero-filled buffer, speed_value = static_cast to uint16 of
(speed_kmh / 0.01f), packed little endian at bytes 4 and 5. -/
def generateSpeedMessage (speed_kmh : Nat) : List Nat × Nat :=
  let speed_value := rnDivTrunc (speed_kmh * 2 ^ 30) 10737418
  ([0, 0, 0, 0, speed_value % 256, speed_value / 256 % 256, 0, 0], 8)

end VWT6alt

/-! Registry: MessageGeneratorFactory. -/

/-- The two concrete generator classes the factory can instantiate. -/
inductive GeneratorKind where
  | vwt7
  | vwt6
deriving DecidableEq

/-- MessageGeneratorFactory::isVehicleSupported: true exactly for VW_T7,
VW_T6, VW_T61, VW_T5. -/
def isVehicleSupported (vehicle : Nat) : Bool :=
  vehicle = VW_T7 || vehicle = VW_T6 || vehicle = VW_T61 || vehicle = VW_T5

/-- MessageGeneratorFactory::getSupportedVehicles, in declaration order. -/
def getSupportedVehicles : List Nat := [VW_T7, VW_T6, VW_T61, VW_T5]

/-- MessageGeneratorFactory::createMessageGenerator: VW_T7 gets the T7
generator; VW_T6, VW_T61, VW_T5 share the T6 generator; anything else gets
none.  The factory's cache only avoids reallocation, so the semantics is
this pure construction. -/
def createMessageGenerator (vehicle : Nat) : Option GeneratorKind :=
  if vehicle = VW_T7 then some .vwt7
  else if vehicle = VW_T6 then some .vwt6
  else if vehicle = VW_T61 then some .vwt6
  else if vehicle = VW_T5 then some .vwt6
  else none

/-- Virtual dispatch of getRequiredMessageIds over the generator kind. -/
def getRequiredMessageIds : GeneratorKind → List Nat
  | .vwt7 => VWT7.getRequiredMessageIds
  | .vwt6 => VWT6.getRequiredMessageIds

/-- Virtual dispatch of getCANBaudRate over the generator kind. -/
def getCANBaudRate : GeneratorKind → Nat
  | .vwt7 => VWT7.CAN_BAUDRATE
  | .vwt6 => VWT6.CAN_BAUDRATE

/-- Virtual dispatch of generateGearMessage over the generator kind. -/
def generateGearMessage : GeneratorKind → Nat → List Nat × Nat
  | .vwt7, g => VWT7.generateGearMessage g
  | .vwt6, g => VWT6.generateGearMessage g

/-- Virtual dispatch of generateSpeedMessage over the generator kind. -/
def generateSpeedMessage : GeneratorKind → Nat → List Nat × Nat
  | .vwt7, s => VWT7.generateSpeedMessage s
  | .vwt6, s => VWT6.generateSpeedMessage s

/-- First message id of a generator (gear id, ids[0] in the source). -/
def gearMsgId (gen : GeneratorKind) : Nat := (getRequiredMessageIds gen).headI

/-- Second message id of a generator (speed id, ids[1] in the source). -/
def speedMsgId (gen : GeneratorKind) : Nat := (getRequiredMessageIds gen).tail.headI

/-! Controller: CarCanController. -/

/-- The button_map built in the CarCanController constructor; std::map
iterates in ascending key order, and the constructor inserts keys 1..9 in
that order already. -/
def button_map : List (Nat × String) :=
  [(VW_T5, "VW T5"),
   (VW_T6, "VW T6"),
   (VW_T61, "VW T6.1"),
   (VW_T7, "VW T7"),
   (MB_SPRINTER, "M Sprinter"),
   (MB_SPRINTER_2023, "Mercedes Sprinter 2023"),
   (JEEP_RENEGADE, "Jeep Renegade"),
   (JEEP_RENEGADE_MHEV, "Jeep Renegade MHEV"),
   (MB_VIANO, "Mercedes Viano")]

/-- Keys of button_map, in map iteration order. -/
def buttonMapKeys : List Nat := button_map.map Prod.fst

/-- Observable controller state: current_vehicle, current_speed_kmh (uint8),
current_gear. -/
structure ControllerState where
  vehicle : Nat
  speed : Nat
  gear : Gear
deriving DecidableEq

/-- The member initializers of the CarCanController constructor:
current_vehicle = VW_T6, current_speed_kmh = 0, current_gear = PARK. -/
def initialState : ControllerState :=
  { vehicle := VW_T6, speed := 0, gear := Gear.PARK }

/-- CarCanController::setCurrentVehicle: updates current_vehicle only when
the id is a key of button_map (registry support is not consulted). -/
def setCurrentVehicle (vehicle : Nat) (st : ControllerState) : ControllerState :=
  if vehicle ∈ buttonMapKeys then { st with vehicle := vehicle } else st

/-- CarCanController::setSpeed: updates current_speed_kmh only when the
uint8 argument is at most 250. -/
def setSpeed (speed_kmh : Nat) (st : ControllerState) : ControllerState :=
  if speed_kmh ≤ 250 then { st with speed := speed_kmh } else st

/-- CarCanController::setGear: unconditional update. -/
def setGear (gear : Gear) (st : ControllerState) : ControllerState :=
  { st with gear := gear }

/-- One attempted CAN transmission handed to send_can_message. -/
structure Frame where
  id : Nat
  data : List Nat
  dlc : Nat
deriving DecidableEq

/-- CarCanController::sendPeriodicMessages, as the ordered list of frames it
hands to send_can_message in one tick.  gearTxFails stands for the esp error
result of the gear frame's twai_transmit; the source only logs that result,
so it influences nothing (the parameter is deliberately never consulted,
mirroring the code).  No generator for the current vehicle means no frames;
otherwise the gear frame (ids[0]) precedes the speed frame (ids[1]). -/
def sendPeriodicMessages (gearTxFails : Bool) (st : ControllerState) : List Frame :=
  match createMessageGenerator st.vehicle with
  | none => []
  | some gen =>
    let ids := getRequiredMessageIds gen
    let gearFrames :=
      match ids with
      | [] => []
      | id0 :: _ =>
        let gm := generateGearMessage gen st.gear.toNat
        [{ id := id0, data := gm.1, dlc := gm.2 }]
    let speedFrames :=
      match ids with
      | _ :: id1 :: _ =>
        let sm := generateSpeedMessage gen st.speed
        [{ id := id1, data := sm.1, dlc := sm.2 }]
      | _ => []
    gearFrames ++ speedFrames

/-! Serial command layer: SerialCommandHandler. -/

/-- SerialCommandHandler::vehicleIdToString (switch with UNKNOWN default). -/
def vehicleIdToString (vehicle : Nat) : String :=
  if vehicle = VW_T7 then "VWT7"
  else if vehicle = VW_T6 then "VWT6"
  else if vehicle = VW_T61 then "VWT61"
  else if vehicle = VW_T5 then "VWT5"
  else if vehicle = MB_SPRINTER then "MB_SPRINTER"
  else if vehicle = MB_SPRINTER_2023 then "MB_SPRINTER_2023"
  else if vehicle = JEEP_RENEGADE then "JEEP_RENEGADE"
  else if vehicle = JEEP_RENEGADE_MHEV then "JEEP_RENEGADE_MHEV"
  else if vehicle = MB_VIANO then "MB_VIANO"
  else "UNKNOWN"

/-- SerialCommandHandler::stringToVehicleId (strcmp chain, 0 = invalid
marker for any unrecognized name). -/
def stringToVehicleId (vehicle_str : String) : Nat :=
  if vehicle_str = "VWT7" then VW_T7
  else if vehicle_str = "VWT6" then VW_T6
  else if vehicle_str = "VWT61" then VW_T61
  else if vehicle_str = "VWT5" then VW_T5
  else if vehicle_str = "MB_SPRINTER" then MB_SPRINTER
  else if vehicle_str = "MB_SPRINTER_2023" then MB_SPRINTER_2023
  else if vehicle_str = "JEEP_RENEGADE" then JEEP_RENEGADE
  else if vehicle_str = "JEEP_RENEGADE_MHEV" then JEEP_RENEGADE_MHEV
  else if vehicle_str = "MB_VIANO" then MB_VIANO
  else 0

/-- SerialCommandHandler::gearToString. -/
def gearToString : Gear → String
  | .PARK => "PARK"
  | .REVERSE => "REVERSE"
  | .NEUTRAL => "NEUTRAL"
  | .DRIVE => "DRIVE"

/-- SerialCommandHandler::handleSetVehicle on the state it touches: a name
that maps to the invalid marker 0 yields an error response (Bool false) and
no controller call; otherwise setCurrentVehicle runs and an ok response is
sent. -/
def handleSetVehicle (name : String) (st : ControllerState) : ControllerState × Bool :=
  let vehicle_id := stringToVehicleId name
  if vehicle_id = 0 then (st, false)
  else (setCurrentVehicle vehicle_id st, true)

/-- SerialCommandHandler::handleSetSpeed: the JSON integer is range-checked
before the controller is touched; out of 0..250 yields an error response
(Bool false) with no controller call. -/
def handleSetSpeed (speed : Int) (st : ControllerState) : ControllerState × Bool :=
  if speed < 0 ∨ 250 < speed then (st, false)
  else (setSpeed speed.toNat st, true)

/-- SerialCommandHandler::handleGetStatus: the vehicle, gear and speed
fields of the status response. -/
def handleGetStatus (st : ControllerState) : String × String × Nat :=
  (vehicleIdToString st.vehicle, gearToString st.gear, st.speed)

/-- SerialCommandHandler::handleGetSupportedVehicles: iterates the
controller's button_map (not the factory) and emits vehicleIdToString of
every key, in map order. -/
def handleGetSupportedVehicles : List String :=
  buttonMapKeys.map vehicleIdToString

/-- SerialCommandHandler::handleResetSettings: setCurrentVehicle(VW_T6),
then setGear(PARK), then setSpeed(0). -/
def handleResetSettings (st : ControllerState) : ControllerState :=
  setSpeed 0 (setGear Gear.PARK (setCurrentVehicle VW_T6 st))

/-! Helper lemmas shared by the claim theorems. -/

theorem vwt7_gearValue_ne_zero (g : Nat) : VWT7.gearValue g ≠ 0 := by
  unfold VWT7.gearValue
  repeat' split
  all_goals decide

theorem vwt6_gearValue_ne_zero (g : Nat) : VWT6.gearValue g ≠ 0 := by
  unfold VWT6.gearValue
  repeat' split
  all_goals decide

theorem vwt7_gearValue_default (g : Nat) : VWT7.gearValue (g + 4) = VWT7.gearValue 0 := by
  unfold VWT7.gearValue
  have h0 : ¬(g + 4 = 0) := by omega
  have h1 : ¬(g + 4 = 1) := by omega
  have h2 : ¬(g + 4 = 2) := by omega
  have h3 : ¬(g + 4 = 3) := by omega
  simp [h0, h1, h2, h3]

theorem vwt6_gearValue_default (g : Nat) : VWT6.gearValue (g + 4) = VWT6.gearValue 0 := by
  unfold VWT6.gearValue
  have h0 : ¬(g + 4 = 0) := by omega
  have h1 : ¬(g + 4 = 1) := by omega
  have h2 : ¬(g + 4 = 2) := by omega
  have h3 : ¬(g + 4 = 3) := by omega
  simp [h0, h1, h2, h3]

theorem buttonMapKeys_mem_iff (v : Nat) : v ∈ buttonMapKeys ↔ 1 ≤ v ∧ v ≤ 9 := by
  simp [buttonMapKeys, button_map, VW_T5, VW_T6, VW_T61, VW_T7, MB_SPRINTER,
        MB_SPRINTER_2023, JEEP_RENEGADE, JEEP_RENEGADE_MHEV, MB_VIANO]
  omega

/-! Claim theorems. -/

/-- C1 counterexample: MB_SPRINTER is not supported by the message-generator
registry, its command name does not map to the invalid marker, and
setCurrentVehicle accepts it and changes the current vehicle — the claim
that registry-unsupported ids are rejected with state unchanged is false. -/
theorem c1_counterexample :
    isVehicleSupported MB_SPRINTER = false ∧
    stringToVehicleId "MB_SPRINTER" = MB_SPRINTER ∧
    (setCurrentVehicle MB_SPRINTER initialState).vehicle = MB_SPRINTER ∧
    setCurrentVehicle MB_SPRINTER initialState ≠ initialState := by
  decide

/-- C1 (amended): setCurrentVehicle validates against the controller's
button_map, not the registry: an id outside the nine button_map keys leaves
the observable state unchanged, while any of the nine keys — including ones
the registry does not support — is accepted and replaces the current
vehicle, leaving speed and gear unchanged. -/
theorem c1_set_vehicle_button_map (v : Nat) (st : ControllerState) :
    (v = 0 ∨ 10 ≤ v → setCurrentVehicle v st = st) ∧
    (1 ≤ v → v ≤ 9 → setCurrentVehicle v st = { st with vehicle := v }) := by
  constructor
  · intro h
    rw [setCurrentVehicle, if_neg]
    rw [buttonMapKeys_mem_iff]
    omega
  · intro h1 h2
    rw [setCurrentVehicle, if_pos]
    rw [buttonMapKeys_mem_iff]
    omega

/-- C1 witness: id 42 is ignored; registry-unsupported MB_SPRINTER is
accepted. -/
theorem c1_set_vehicle_button_map_witness :
    setCurrentVehicle 42 initialState = initialState ∧
    setCurrentVehicle MB_SPRINTER initialState = { initialState with vehicle := MB_SPRINTER } :=
  ⟨(c1_set_vehicle_button_map 42 initialState).1 (by omega),
   (c1_set_vehicle_button_map MB_SPRINTER initialState).2 (by decide) (by decide)⟩

/-- C2 counterexample: the list handleGetSupportedVehicles returns is not
the registry's supported sequence — it contains MB_SPRINTER, for which the
factory constructs no generator. -/
theorem c2_counterexample :
    handleGetSupportedVehicles ≠ getSupportedVehicles.map vehicleIdToString ∧
    "MB_SPRINTER" ∈ handleGetSupportedVehicles ∧
    createMessageGenerator MB_SPRINTER = none := by
  decide

/-- C2 (amended): get_supported_vehicles answers with the button_map's nine
vehicle names in enum-key order, a strict superset of the registry's
four-vehicle sequence; every registry-supported name is in it, but so are
names of vehicles without any registry descriptor. -/
theorem c2_supported_vehicles_list :
    handleGetSupportedVehicles =
      ["VWT5", "VWT6", "VWT61", "VWT7", "MB_SPRINTER", "MB_SPRINTER_2023",
       "JEEP_RENEGADE", "JEEP_RENEGADE_MHEV", "MB_VIANO"] ∧
    getSupportedVehicles.map vehicleIdToString = ["VWT7", "VWT6", "VWT61", "VWT5"] ∧
    ("VWT7" ∈ handleGetSupportedVehicles ∧ "VWT6" ∈ handleGetSupportedVehicles ∧
     "VWT61" ∈ handleGetSupportedVehicles ∧ "VWT5" ∈ handleGetSupportedVehicles) ∧
    createMessageGenerator MB_SPRINTER = none ∧
    createMessageGenerator MB_SPRINTER_2023 = none ∧
    createMessageGenerator JEEP_RENEGADE = none ∧
    createMessageGenerator JEEP_RENEGADE_MHEV = none ∧
    createMessageGenerator MB_VIANO = none := by
  decide

/-- C3: the serial set_speed rejects every input outside 0..250 with an
error and leaves the state (hence a later get_status) unchanged; every
input in 0..250 is stored verbatim with an ok response; and the controller
setter itself ignores uint8 arguments above 250 rather than clamping. -/
theorem c3_set_speed_validation (speed : Int) (u : Nat) (st : ControllerState) :
    (speed < 0 ∨ 250 < speed →
       handleSetSpeed speed st = (st, false) ∧
       handleGetStatus (handleSetSpeed speed st).1 = handleGetStatus st) ∧
    (0 ≤ speed → speed ≤ 250 →
       (handleSetSpeed speed st).1.speed = speed.toNat ∧
       (handleSetSpeed speed st).2 = true) ∧
    (251 ≤ u → setSpeed u st = st) := by
  refine ⟨?_, ?_, ?_⟩
  · intro h
    have he : handleSetSpeed speed st = (st, false) := by
      rw [handleSetSpeed, if_pos h]
    exact ⟨he, by rw [he]⟩
  · intro h1 h2
    have hc : ¬(speed < 0 ∨ 250 < speed) := by omega
    have ht : speed.toNat ≤ 250 := by omega
    rw [handleSetSpeed, if_neg hc]
    simp [setSpeed, ht]
  · intro h
    rw [setSpeed, if_neg (by omega)]

/-- C3 witness: set_speed 300 is rejected and status still reports the
prior speed; set_speed 100 stores 100; the controller ignores 251. -/
theorem c3_set_speed_validation_witness :
    (handleSetSpeed 300 initialState = (initialState, false) ∧
     handleGetStatus (handleSetSpeed 300 initialState).1 = handleGetStatus initialState) ∧
    ((handleSetSpeed 100 initialState).1.speed = (100 : Int).toNat ∧
     (handleSetSpeed 100 initialState).2 = true) ∧
    setSpeed 251 initialState = initialState :=
  ⟨(c3_set_speed_validation 300 251 initialState).1 (by omega),
   (c3_set_speed_validation 100 251 initialState).2.1 (by omega) (by omega),
   (c3_set_speed_validation 300 251 initialState).2.2 (by omega)⟩

/-- C4: for the VW T7 family the message ids are gear 0x3DC and speed
0x0FD; encoding speed 100 km/h puts the 16-bit value 10000 little endian at
bytes 4 and 5 with every other byte zero, and encoding gear DRIVE puts the
family's drive code 0x02 at byte 5 with every other byte zero. -/
theorem c4_vwt7_scenario :
    VWT7.getRequiredMessageIds = [0x3DC, 0x0FD] ∧
    VWT7.generateSpeedMessage 100 = ([0, 0, 0, 0, 0x10, 0x27, 0, 0], 8) ∧
    0x10 + 256 * 0x27 = 10000 ∧
    VWT7.generateGearMessage Gear.DRIVE.toNat = ([0, 0, 0, 0, 0, 0x02, 0, 0], 8) := by
  decide

/-- C5: for every gear code (values outside the 4-entry enum fall to the
default branch, which is PARK's code) and every uint8 speed, both current
encoder families report dlc = 8 and produce payloads whose bytes outside
the placed field are exactly zero; gear encoding is total and never yields
an all-zero payload (PARK encodes to 0x05 and 0x80, neither zero). -/
theorem c5_encoders_total_zero_fill (g s : Nat) (hs : s ≤ 255) :
    ((VWT7.generateGearMessage g).2 = 8 ∧
     ∃ c, c ≠ 0 ∧ (VWT7.generateGearMessage g).1 = [0, 0, 0, 0, 0, c, 0, 0]) ∧
    ((VWT6.generateGearMessage g).2 = 8 ∧
     ∃ c, c ≠ 0 ∧ (VWT6.generateGearMessage g).1 = [0, c, 0, 0, 0, 0, 0, 0]) ∧
    (VWT7.generateGearMessage (g + 4) = VWT7.generateGearMessage Gear.PARK.toNat ∧
     VWT6.generateGearMessage (g + 4) = VWT6.generateGearMessage Gear.PARK.toNat) ∧
    ((VWT7.generateSpeedMessage s).2 = 8 ∧
     ∃ a b, (VWT7.generateSpeedMessage s).1 = [0, 0, 0, 0, a, b, 0, 0]) ∧
    ((VWT6.generateSpeedMessage s).2 = 8 ∧
     ∃ a b, (VWT6.generateSpeedMessage s).1 = [0, 0, a, b, 0, 0, 0, 0]) ∧
    (VWT7.generateGearMessage g).1 ≠ [0, 0, 0, 0, 0, 0, 0, 0] ∧
    (VWT6.generateGearMessage g).1 ≠ [0, 0, 0, 0, 0, 0, 0, 0] := by
  refine ⟨⟨rfl, VWT7.gearValue g, vwt7_gearValue_ne_zero g, rfl⟩,
          ⟨rfl, VWT6.gearValue g, vwt6_gearValue_ne_zero g, rfl⟩,
          ⟨?_, ?_⟩,
          ⟨rfl, _, _, rfl⟩,
          ⟨rfl, _, _, rfl⟩,
          ?_, ?_⟩
  · show VWT7.generateGearMessage (g + 4) = VWT7.generateGearMessage 0
    unfold VWT7.generateGearMessage
    rw [vwt7_gearValue_default]
  · show VWT6.generateGearMessage (g + 4) = VWT6.generateGearMessage 0
    unfold VWT6.generateGearMessage
    rw [vwt6_gearValue_default]
  · intro h
    apply vwt7_gearValue_ne_zero g
    have h5 := congrArg (fun l => l.getD 5 1) h
    simpa [VWT7.generateGearMessage] using h5
  · intro h
    apply vwt6_gearValue_ne_zero g
    have h1 := congrArg (fun l => l.getD 1 1) h
    simpa [VWT6.generateGearMessage] using h1

/-- C5 witness: the out-of-enum gear code 7 at speed 250 still yields a
fully formed, non-all-zero T7 gear frame. -/
theorem c5_encoders_total_zero_fill_witness :
    (VWT7.generateGearMessage 7).2 = 8 ∧
    (VWT7.generateGearMessage 7).1 ≠ [0, 0, 0, 0, 0, 0, 0, 0] :=
  ⟨(c5_encoders_total_zero_fill 7 250 (by decide)).1.1,
   (c5_encoders_total_zero_fill 7 250 (by decide)).2.2.2.2.2.1⟩

/-- C6: in one periodic tick, a current vehicle without a generator sends
nothing; with a generator the tick attempts exactly two frames, the gear
frame (ids[0]) strictly before the speed frame (ids[1]); and the attempt
list does not depend on whether the gear transmit fails, since the source
only logs the transmit result. -/
theorem c6_tick_gear_before_speed (st : ControllerState) (b : Bool) :
    (createMessageGenerator st.vehicle = none → sendPeriodicMessages b st = []) ∧
    (∀ gen, createMessageGenerator st.vehicle = some gen →
       sendPeriodicMessages b st =
         [{ id := gearMsgId gen, data := (generateGearMessage gen st.gear.toNat).1,
            dlc := (generateGearMessage gen st.gear.toNat).2 },
          { id := speedMsgId gen, data := (generateSpeedMessage gen st.speed).1,
            dlc := (generateSpeedMessage gen st.speed).2 }]) ∧
    sendPeriodicMessages b st = sendPeriodicMessages true st := by
  refine ⟨?_, ?_, rfl⟩
  · intro h
    unfold sendPeriodicMessages
    rw [h]
  · intro gen h
    unfold sendPeriodicMessages
    rw [h]
    cases gen <;> rfl

/-- C6 witness: with MB_SPRINTER selected nothing is sent; in the initial
state (VW T6, PARK, 0) the gear frame on id 0x440 precedes the speed frame
on id 0x1A0. -/
theorem c6_tick_gear_before_speed_witness :
    sendPeriodicMessages false { vehicle := MB_SPRINTER, speed := 0, gear := Gear.PARK } = [] ∧
    sendPeriodicMessages false initialState =
      [{ id := gearMsgId GeneratorKind.vwt6,
         data := (generateGearMessage GeneratorKind.vwt6 initialState.gear.toNat).1,
         dlc := (generateGearMessage GeneratorKind.vwt6 initialState.gear.toNat).2 },
       { id := speedMsgId GeneratorKind.vwt6,
         data := (generateSpeedMessage GeneratorKind.vwt6 initialState.speed).1,
         dlc := (generateSpeedMessage GeneratorKind.vwt6 initialState.speed).2 }] :=
  ⟨(c6_tick_gear_before_speed { vehicle := MB_SPRINTER, speed := 0, gear := Gear.PARK } false).1
     (by decide),
   (c6_tick_gear_before_speed initialState false).2.1 GeneratorKind.vwt6 (by decide)⟩

/-- C7: every vehicle in the registry's supported list gets a generator
whose gear message id differs from its speed message id and whose baud rate
is one of 125000, 250000, 500000. -/
theorem c7_descriptor_invariants (v : Nat) (h : v ∈ getSupportedVehicles) :
    ∃ gen, createMessageGenerator v = some gen ∧
      gearMsgId gen ≠ speedMsgId gen ∧
      (getCANBaudRate gen = 125000 ∨ getCANBaudRate gen = 250000 ∨
       getCANBaudRate gen = 500000) := by
  fin_cases h
  · exact ⟨.vwt7, by decide, by decide, by decide⟩
  · exact ⟨.vwt6, by decide, by decide, by decide⟩
  · exact ⟨.vwt6, by decide, by decide, by decide⟩
  · exact ⟨.vwt6, by decide, by decide, by decide⟩

/-- C7 witness at VW_T7. -/
theorem c7_descriptor_invariants_witness :
    ∃ gen, createMessageGenerator VW_T7 = some gen ∧
      gearMsgId gen ≠ speedMsgId gen ∧
      (getCANBaudRate gen = 125000 ∨ getCANBaudRate gen = 250000 ∨
       getCANBaudRate gen = 500000) :=
  c7_descriptor_invariants VW_T7 (by decide)

/-- C8: on the nine registered vehicle ids the name mapping is a bijection
(stringToVehicleId inverts vehicleIdToString), and every string that is not
one of the nine registered names maps to the invalid marker 0, never to a
valid id. -/
theorem c8_vehicle_name_bijection :
    (∀ v, v ∈ buttonMapKeys → stringToVehicleId (vehicleIdToString v) = v) ∧
    (∀ s, s ∉ ["VWT7", "VWT6", "VWT61", "VWT5", "MB_SPRINTER", "MB_SPRINTER_2023",
               "JEEP_RENEGADE", "JEEP_RENEGADE_MHEV", "MB_VIANO"] →
       stringToVehicleId s = 0) := by
  constructor
  · intro v hv
    fin_cases hv <;> decide
  · intro s hs
    simp only [List.mem_cons, List.not_mem_nil, or_false, not_or] at hs
    obtain ⟨h1, h2, h3, h4, h5, h6, h7, h8, h9⟩ := hs
    simp [stringToVehicleId, h1, h2, h3, h4, h5, h6, h7, h8, h9]

/-- C8 witness: MB_VIANO round-trips; the unregistered name GOLF maps to
the invalid marker. -/
theorem c8_vehicle_name_bijection_witness :
    stringToVehicleId (vehicleIdToString MB_VIANO) = MB_VIANO ∧
    stringToVehicleId "GOLF" = 0 :=
  ⟨c8_vehicle_name_bijection.1 MB_VIANO (by decide),
   c8_vehicle_name_bijection.2 "GOLF" (by decide)⟩

/-- C9: the two source revisions of the VW T6 speed encoder are not
extensionally equal — already at 100 km/h the current revision places
raw 20000 (100 / 0.005) at bytes 2..3 while the other places raw 10000
(100 / 0.01) at bytes 4..5. -/
theorem c9_t6_speed_revisions_differ :
    ∃ s, s ≤ 250 ∧ VWT6.generateSpeedMessage s ≠ VWT6alt.generateSpeedMessage s :=
  ⟨100, by decide, by decide⟩

/-- C10: handleResetSettings drives every state to the triple
(VW_T6, 0 km/h, PARK), which is exactly the constructor's initial state. -/
theorem c10_reset_settings_initial (st : ControllerState) :
    handleResetSettings st = initialState := by
  rw [handleResetSettings, setCurrentVehicle, if_pos (by decide)]
  rfl

/-- C10 witness at a fully non-default state. -/
theorem c10_reset_settings_initial_witness :
    handleResetSettings { vehicle := MB_VIANO, speed := 123, gear := Gear.DRIVE } = initialState :=
  c10_reset_settings_initial { vehicle := MB_VIANO, speed := 123, gear := Gear.DRIVE }
